import Mathlib

/-!
Verification development for the Texas boil-water-notice scraper
(`tx_boil_water_scraper.py`).

The Python source is shallowly embedded as executable Lean definitions:

* Python strings are `String`; `text.lower()`, `name.upper()` and
  `s.strip()` are modelled by the ASCII functions `strLower`, `strUpper`
  and `strTrim` below (all data handled by the program is ASCII, and
  Python's `str.lower`/`str.upper` agree with the ASCII maps there);
  the Python substring test `pat in s` is `containsSub s pat`.
* Python floats are modelled as rationals (`ℚ`); every coordinate the
  program manipulates is a short decimal literal, where float and
  rational arithmetic coincide (only comparisons and copying occur).
* The geocoding HTTP call is an oracle `ext : String → Option (ℚ × ℚ)`
  (`none` models a failed/timed-out/empty Nominatim request), and the
  run-to-run geocode cache is an explicit association list threaded
  through `geocode_notices`.
* The per-source HTML scraping adapters are modelled at the granularity
  of their per-item emission logic: the DOM extraction yields the string
  arguments, and the embedded function reproduces the source's branch
  structure that decides whether a Notice is emitted and with which
  fields.  Regex-based helpers that only produce auxiliary strings
  (`extract_date_from_text`, `_extract_entity_from_headline`,
  `_extract_place_name`, the area-name regex of Consolidated WSC) are
  passed as function parameters and universally quantified in the
  theorems, since no claim constrains their output.
-/

namespace TxBwn

attribute [local semireducible] Rat.ofScientific

/-- `subOccurs p t` is true iff `p` occurs as a contiguous sublist of `t`. -/
def subOccurs (p : List Char) : List Char → Bool
  | [] => p.isEmpty
  | c :: t => List.isPrefixOf p (c :: t) || subOccurs p t

/-- Python's substring test `pat in s`. -/
def containsSub (s pat : String) : Bool := subOccurs pat.data s.data

/-- ASCII lower-casing of one character (Python `str.lower` on ASCII data). -/
def lowerChar (c : Char) : Char :=
  if 'A' ≤ c ∧ c ≤ 'Z' then Char.ofNat (c.toNat + 32) else c

/-- ASCII upper-casing of one character (Python `str.upper` on ASCII data). -/
def upperChar (c : Char) : Char :=
  if 'a' ≤ c ∧ c ≤ 'z' then Char.ofNat (c.toNat - 32) else c

/-- Python `s.lower()` (ASCII). -/
def strLower (s : String) : String := ⟨s.data.map lowerChar⟩

/-- Python `s.upper()` (ASCII). -/
def strUpper (s : String) : String := ⟨s.data.map upperChar⟩

/-- ASCII whitespace, as stripped by Python `str.strip()`. -/
def isWs (c : Char) : Bool :=
  c = ' ' || c = '\t' || c = '\n' || c = '\r' || c = '\x0b' || c = '\x0c'

/-- Drop leading whitespace characters. -/
def dropWs : List Char → List Char
  | [] => []
  | c :: t => if isWs c then dropWs t else c :: t

/-- Python `s.strip()`: remove leading and trailing whitespace. -/
def strTrim (s : String) : String := ⟨(dropWs (dropWs s.data.reverse).reverse)⟩

/-- Python slicing `s[:k]` (by code point, as in Python). -/
def strTake (s : String) (k : Nat) : String := ⟨s.data.take k⟩

/-- `BWN_ACTIVE_PHRASES` from the source: phrases signalling an ACTIVE
boil water notice (matched case-insensitively). -/
def BWN_ACTIVE_PHRASES : List String := [
  "boil water notice issued",
  "boil water notice is in effect",
  "boil water notice has been issued",
  "boil water advisory issued",
  "boil water advisory is in effect",
  "boil water advisory has been issued",
  "under a boil water",
  "subject to a boil water",
  "customers should boil",
  "advised to boil",
  "must boil water",
  "must boil all water",
  "boil your water",
  "boil all water",
  "do not use water",
  "do not consume water",
  "do not drink the water",
  "unsafe to drink",
  "until further notice",
  "precautionary boil",
  "due to a line break",
  "due to a water line",
  "due to loss of pressure",
  "low pressure"]

/-- `BWN_LIFTED_KEYWORDS` from the source: keywords signalling the notice
has been LIFTED / is no longer active. -/
def BWN_LIFTED_KEYWORDS : List String := [
  "rescind",
  "lifted",
  "no longer in effect",
  "has been cancelled",
  "has been canceled",
  "all clear",
  "safe to drink",
  "notice is over",
  "no active",
  "no current",
  "not currently under",
  "no boil water",
  "there are no"]

/-- `is_active_bwn_text` from the source: true iff the text describes an
ACTIVE boil water notice. -/
def is_active_bwn_text (text : String) : Bool :=
  let lower := strLower text
  let has_bwn := BWN_ACTIVE_PHRASES.any (fun phrase => containsSub lower phrase)
  let lifted := BWN_LIFTED_KEYWORDS.any (fun kw => containsSub lower kw)
  has_bwn && !lifted

/-- The text contains at least one active phrase (case-insensitive
substring match, the phrase constants being lowercase). -/
def HasActivePhrase (text : String) : Prop :=
  ∃ p ∈ BWN_ACTIVE_PHRASES, containsSub (strLower text) p = true

/-- The text contains at least one lifted keyword (case-insensitive
substring match, the keyword constants being lowercase). -/
def HasLiftedKeyword (text : String) : Prop :=
  ∃ k ∈ BWN_LIFTED_KEYWORDS, containsSub (strLower text) k = true

/-- `classify_entity` from the source: classify entity type from its name. -/
def classify_entity (name : String) : String :=
  let upper := strUpper name
  if containsSub upper "MUD" || containsSub upper "MUNICIPAL UTILITY" ||
      containsSub upper "M.U.D." then
    "Municipal Utility District (MUD)"
  else if containsSub upper "WSC" || containsSub upper "WATER SUPPLY CORP" then
    "Water Supply Corporation (WSC)"
  else if containsSub upper "SUD" || containsSub upper "SPECIAL UTILITY" then
    "Special Utility District (SUD)"
  else if containsSub upper "WCID" || containsSub upper "WATER CONTROL" then
    "Water Control & Improvement District (WCID)"
  else if containsSub upper "FWSD" || containsSub upper "FRESH WATER" then
    "Fresh Water Supply District (FWSD)"
  else if containsSub upper "PUD" || containsSub upper "PUBLIC UTILITY" then
    "Public Utility District (PUD)"
  else if ["CITY OF", "TOWN OF", "VILLAGE OF"].any (fun x => containsSub upper x) then
    "Municipality"
  else if containsSub upper "COUNTY" then "County"
  else if containsSub upper "RURAL WATER" then "Rural Water System"
  else if containsSub upper "WATER DISTRICT" then "Water District"
  else if containsSub upper "WATER AUTH" then "Water Authority"
  else if containsSub upper "RIVER AUTH" then "River Authority"
  else "Water System"

/-- The spec's view of entity-type classification: a priority-ordered
table of (keyword-set, category) rules, mirroring the source's `if`
chain rule by rule, in the same order. -/
def entity_rules_spec : List (List String × String) := [
  (["MUD", "MUNICIPAL UTILITY", "M.U.D."], "Municipal Utility District (MUD)"),
  (["WSC", "WATER SUPPLY CORP"], "Water Supply Corporation (WSC)"),
  (["SUD", "SPECIAL UTILITY"], "Special Utility District (SUD)"),
  (["WCID", "WATER CONTROL"], "Water Control & Improvement District (WCID)"),
  (["FWSD", "FRESH WATER"], "Fresh Water Supply District (FWSD)"),
  (["PUD", "PUBLIC UTILITY"], "Public Utility District (PUD)"),
  (["CITY OF", "TOWN OF", "VILLAGE OF"], "Municipality"),
  (["COUNTY"], "County"),
  (["RURAL WATER"], "Rural Water System"),
  (["WATER DISTRICT"], "Water District"),
  (["WATER AUTH"], "Water Authority"),
  (["RIVER AUTH"], "River Authority")]

/-- The spec's first-match-wins evaluation of a priority-ordered rule
list, with the generic default category when no rule matches. -/
def first_match_spec (upper : String) : List (List String × String) → String
  | [] => "Water System"
  | (ks, cat) :: rest =>
    if ks.any (fun k => containsSub upper k) then cat else first_match_spec upper rest

/-- C1: `is_active_bwn_text` returns Active (true) iff the text contains
at least one active phrase (case-insensitive substring match) and no
lifted keyword; in particular a text containing both an active phrase
and a lifted keyword, in either relative order, classifies NotActive —
lifted-keyword presence always overrides. -/
theorem active_iff_phrase_and_not_lifted (T : String) :
    (is_active_bwn_text T = true ↔ HasActivePhrase T ∧ ¬ HasLiftedKeyword T) ∧
    (HasActivePhrase T → HasLiftedKeyword T → is_active_bwn_text T = false) := by
  constructor
  · simp [is_active_bwn_text, HasActivePhrase, HasLiftedKeyword, List.any_eq_true]
  · intro _ hl
    simp only [is_active_bwn_text, Bool.and_eq_false_imp, Bool.not_eq_false']
    intro _
    simp only [List.any_eq_true]
    obtain ⟨k, hk, hck⟩ := hl
    exact ⟨k, hk, hck⟩

/-- Witness for C1 on a concrete text containing both the active phrase
"advised to boil" and the lifted keyword "rescind". -/
theorem active_iff_phrase_and_not_lifted_witness :
    is_active_bwn_text
      "Residents were advised to boil water. This notice has been rescinded." = false :=
  (active_iff_phrase_and_not_lifted _).2
    ⟨"advised to boil", by decide, by decide⟩
    ⟨"rescind", by decide, by decide⟩

/-- C2: entity-type classification evaluates a fixed priority-ordered
rule list against the uppercased name, first match wins; a name
containing both an MUD-indicating substring and the generic
"WATER DISTRICT" substring classifies as the MUD category; and a name
matching no rule classifies as the generic "Water System". -/
theorem classify_entity_priority_rules :
    (∀ name : String,
      classify_entity name = first_match_spec (strUpper name) entity_rules_spec) ∧
    (∀ name : String,
      ["MUD", "MUNICIPAL UTILITY", "M.U.D."].any
          (fun k => containsSub (strUpper name) k) = true →
      containsSub (strUpper name) "WATER DISTRICT" = true →
      classify_entity name = "Municipal Utility District (MUD)") ∧
    (∀ name : String,
      entity_rules_spec.all
          (fun r => !(r.1.any (fun k => containsSub (strUpper name) k))) = true →
      classify_entity name = "Water System") := by
  refine ⟨fun name => ?_, fun name hmud _ => ?_, fun name hnone => ?_⟩
  · simp only [classify_entity, first_match_spec, entity_rules_spec,
      List.any_cons, List.any_nil, Bool.or_false, Bool.or_assoc]
  · simp only [List.any_cons, List.any_nil, Bool.or_false, Bool.or_eq_true] at hmud
    simp only [classify_entity]
    rcases hmud with h | h | h <;> simp [h]
  · simp only [entity_rules_spec, List.all_cons, List.all_nil, List.any_cons,
      List.any_nil, Bool.or_false, Bool.and_eq_true, Bool.not_eq_true',
      Bool.or_eq_false_iff, Bool.and_true] at hnone
    obtain ⟨⟨h1, h2, h3⟩, ⟨h4, h5⟩, ⟨h6, h7⟩, ⟨h8, h9⟩, ⟨h10, h11⟩, ⟨h12, h13⟩,
      ⟨h14, h15, h16⟩, h17, h18, h19, h20, h21⟩ := hnone
    simp [classify_entity, h1, h2, h3, h4, h5, h6, h7, h8, h9, h10, h11, h12,
      h13, h14, h15, h16, h17, h18, h19, h20, h21]

/-- Witness for C2: a name with both "MUD" and "WATER DISTRICT" resolves
to the MUD category, and a name matching no rule gets the default. -/
theorem classify_entity_priority_rules_witness :
    classify_entity "Harris Mud Water District 5" = "Municipal Utility District (MUD)" ∧
    classify_entity "Acme" = "Water System" :=
  ⟨classify_entity_priority_rules.2.1 "Harris Mud Water District 5"
      (by decide) (by decide),
    classify_entity_priority_rules.2.2 "Acme" (by decide)⟩

/-- A pipeline Notice record (the dict built by the source's adapters;
latitude/longitude are added by `geocode_notices`, floats modelled
as rationals). -/
structure Notice where
  entity_name : String
  entity_type : String
  status : String
  notice_text : String
  date : String
  source : String
  source_url : String
  entity_url : String
  lat : Option ℚ := none
  lon : Option ℚ := none
deriving DecidableEq, Repr

/-- The dedup identity key used in `main`:
`(n["entity_name"].lower().strip(), n["source"])`. -/
def dedupe_key (n : Notice) : String × String := (strTrim (strLower n.entity_name), n.source)

/-- The dedup loop of `main` (lines 1113–1121): walk the input in order,
keep a notice iff its key has not been seen yet. -/
def dedupe_go (seen : List (String × String)) : List Notice → List Notice
  | [] => []
  | n :: rest =>
    let key := dedupe_key n
    if key ∈ seen then dedupe_go seen rest
    else n :: dedupe_go (key :: seen) rest

/-- Deduplicate by (normalized entity name, source), first-seen wins. -/
def dedupe (l : List Notice) : List Notice := dedupe_go [] l

lemma dedupe_go_filter_of_seen (k : String × String) (l : List Notice)
    (seen : List (String × String)) (hk : k ∈ seen) :
    (dedupe_go seen l).filter (fun m => decide (dedupe_key m = k)) = [] := by
  induction l generalizing seen with
  | nil => rfl
  | cons n rest ih =>
    simp only [dedupe_go]
    split
    · exact ih seen hk
    · rename_i hmem
      have hne : ¬ dedupe_key n = k := fun h => hmem (h ▸ hk)
      rw [List.filter_cons_of_neg (by simpa using hne)]
      exact ih (dedupe_key n :: seen) (List.mem_cons_of_mem _ hk)

lemma dedupe_go_filter_of_not_seen (k : String × String) (l : List Notice)
    (seen : List (String × String)) (hk : k ∉ seen) :
    (dedupe_go seen l).filter (fun m => decide (dedupe_key m = k)) =
      (l.find? (fun m => decide (dedupe_key m = k))).toList := by
  induction l generalizing seen with
  | nil => rfl
  | cons n rest ih =>
    simp only [dedupe_go]
    split
    · rename_i hmem
      have hne : ¬ dedupe_key n = k := fun h => hk (h ▸ hmem)
      rw [List.find?_cons_of_neg _ (by simpa using hne)]
      exact ih seen hk
    · by_cases hkey : dedupe_key n = k
      · rw [List.filter_cons_of_pos (by simpa using hkey),
          List.find?_cons_of_pos _ (by simpa using hkey),
          dedupe_go_filter_of_seen k rest _ (hkey ▸ List.mem_cons_self _ _)]
        rfl
      · rw [List.filter_cons_of_neg (by simpa using hkey),
          List.find?_cons_of_neg _ (by simpa using hkey)]
        exact ih _ (by simp [hk, Ne.symm hkey])

/-- C3: deduplication by (normalized entity name, source) is stable over
input order: every key occurring in the input yields exactly one output
notice — the first input notice with that key — while two notices
sharing the normalized entity name but differing in source each yield
their own (distinct) output notice. -/
theorem dedupe_first_seen_per_key :
    (∀ (l : List Notice) (k : String × String) (n : Notice),
      l.find? (fun m => decide (dedupe_key m = k)) = some n →
      (dedupe l).filter (fun m => decide (dedupe_key m = k)) = [n]) ∧
    (∀ (l : List Notice) (n₁ n₂ : Notice), n₁ ∈ l → n₂ ∈ l →
      strTrim (strLower n₁.entity_name) = strTrim (strLower n₂.entity_name) →
      n₁.source ≠ n₂.source →
      ∃ m₁ m₂, m₁ ∈ dedupe l ∧ m₂ ∈ dedupe l ∧ m₁ ≠ m₂ ∧
        dedupe_key m₁ = dedupe_key n₁ ∧ dedupe_key m₂ = dedupe_key n₂) := by
  have main : ∀ (l : List Notice) (k : String × String) (n : Notice),
      l.find? (fun m => decide (dedupe_key m = k)) = some n →
      (dedupe l).filter (fun m => decide (dedupe_key m = k)) = [n] := by
    intro l k n h
    rw [dedupe, dedupe_go_filter_of_not_seen k l [] (List.not_mem_nil k), h]
    rfl
  refine ⟨main, fun l n₁ n₂ h₁ h₂ hname hsrc => ?_⟩
  have hfind : ∀ n ∈ l, ∃ m, l.find? (fun m => decide (dedupe_key m = dedupe_key n)) = some m := by
    intro n hn
    have : (l.find? (fun m => decide (dedupe_key m = dedupe_key n))).isSome := by
      rw [List.find?_isSome]
      exact ⟨n, hn, by simp⟩
    exact Option.isSome_iff_exists.mp this
  obtain ⟨m₁, hm₁⟩ := hfind n₁ h₁
  obtain ⟨m₂, hm₂⟩ := hfind n₂ h₂
  have hk₁ : dedupe_key m₁ = dedupe_key n₁ := by
    have := List.find?_some hm₁; simpa using this
  have hk₂ : dedupe_key m₂ = dedupe_key n₂ := by
    have := List.find?_some hm₂; simpa using this
  have hmem₁ : m₁ ∈ dedupe l := by
    have := main l (dedupe_key n₁) m₁ hm₁
    exact List.mem_of_mem_filter (this ▸ List.mem_singleton_self m₁)
  have hmem₂ : m₂ ∈ dedupe l := by
    have := main l (dedupe_key n₂) m₂ hm₂
    exact List.mem_of_mem_filter (this ▸ List.mem_singleton_self m₂)
  refine ⟨m₁, m₂, hmem₁, hmem₂, fun he => hsrc ?_, hk₁, hk₂⟩
  have : dedupe_key n₁ = dedupe_key n₂ := hk₁ ▸ he ▸ hk₂
  exact congrArg Prod.snd this

/-- A concrete notice used by several witnesses below. -/
def sampleNotice : Notice :=
  { entity_name := "City of Example", entity_type := "Municipality",
    status := "Active",
    notice_text := "Customers are advised to boil water due to a water line break.",
    date := "5/1/2026", source := "X", source_url := "http://x", entity_url := "" }

/-- Witness for C3: two notices with the same key collapse to the first. -/
theorem dedupe_first_seen_per_key_witness :
    (dedupe [sampleNotice, { sampleNotice with notice_text := "second copy" }]).filter
        (fun m => decide (dedupe_key m = ("city of example", "X"))) = [sampleNotice] :=
  dedupe_first_seen_per_key.1
    [sampleNotice, { sampleNotice with notice_text := "second copy" }]
    ("city of example", "X") sampleNotice (by decide)

/-- `TX_PLACES` from the source: the static gazetteer of Texas place
names → (lat, lon), coordinates as rationals. -/
def TX_PLACES : List (String × ℚ × ℚ) := [
  ("houston", 29.7604, -95.3698),
  ("san antonio", 29.4241, -98.4936),
  ("dallas", 32.7767, -96.7970),
  ("austin", 30.2672, -97.7431),
  ("fort worth", 32.7555, -97.3308),
  ("el paso", 31.7619, -106.4850),
  ("arlington", 32.7357, -97.1081),
  ("corpus christi", 27.8006, -97.3964),
  ("plano", 33.0198, -96.6989),
  ("lubbock", 33.5779, -101.8552),
  ("laredo", 27.5036, -99.5076),
  ("amarillo", 35.2220, -101.8313),
  ("brownsville", 25.9017, -97.4975),
  ("mcallen", 26.2034, -98.2300),
  ("killeen", 31.1171, -97.7278),
  ("midland", 31.9973, -102.0779),
  ("odessa", 31.8457, -102.3676),
  ("beaumont", 30.0802, -94.1266),
  ("round rock", 30.5083, -97.6789),
  ("waco", 31.5493, -97.1467),
  ("tyler", 32.3513, -95.3011),
  ("san angelo", 31.4638, -100.4370),
  ("college station", 30.6280, -96.3344),
  ("abilene", 32.4487, -99.7331),
  ("denton", 33.2148, -97.1331),
  ("marshall", 32.5449, -94.3674),
  ("gilmer", 32.7288, -94.9424),
  ("sonora", 30.5668, -100.6431),
  ("monterey", 32.4487, -101.9),
  ("deadwood", 33.0784, -94.7366),
  ("palestine", 31.7621, -95.6308),
  ("crockett", 31.3182, -95.4566),
  ("grapeland", 31.4918, -95.4777),
  ("oak grove", 31.4, -95.5),
  ("tadmor", 31.35, -95.25),
  ("pine mountain", 31.45, -95.4),
  ("lakeway", 30.3632, -97.9795),
  ("cypress", 29.9691, -95.6972),
  ("spring", 30.0799, -95.4172),
  ("conroe", 30.3119, -95.4560),
  ("the woodlands", 30.1658, -95.4613),
  ("sugar land", 29.6197, -95.6349),
  ("pearland", 29.5636, -95.2860),
  ("league city", 29.5075, -95.0949),
  ("pflugerville", 30.4394, -97.6200),
  ("temple", 31.0982, -97.3428),
  ("bryan", 30.6744, -96.3700),
  ("new braunfels", 29.7030, -98.1245),
  ("san marcos", 29.8833, -97.9414),
  ("georgetown", 30.6333, -97.6778),
  ("cedar park", 30.5052, -97.8203),
  ("harlingen", 26.1906, -97.6961),
  ("mission", 26.2159, -98.3253),
  ("edinburg", 26.3017, -98.1633),
  ("longview", 32.5007, -94.7405),
  ("texarkana", 33.4418, -94.0477),
  ("nacogdoches", 31.6035, -94.6555),
  ("lufkin", 31.3382, -94.7291),
  ("victoria", 28.8053, -96.9850),
  ("wichita falls", 33.9137, -98.4934),
  ("sherman", 33.6357, -96.6089),
  ("del rio", 29.3627, -100.8968),
  ("eagle pass", 28.7091, -100.4995),
  ("uvalde", 29.2097, -99.7862),
  ("fredericksburg", 30.2752, -98.8720),
  ("kerrville", 30.0474, -99.1401),
  ("boerne", 29.7947, -98.7320),
  ("seguin", 29.5688, -97.9647),
  ("bastrop", 30.1105, -97.3153),
  ("lockhart", 29.8849, -97.6700),
  ("gonzales", 29.5017, -97.4525),
  ("cuero", 29.0938, -97.2892),
  ("port arthur", 29.8850, -93.9400),
  ("galveston", 29.3013, -94.7977),
  ("bay city", 28.9828, -95.9694),
  ("angleton", 29.1694, -95.4316),
  ("freeport", 28.9541, -95.3597),
  ("rockport", 28.0206, -97.0544),
  ("port lavaca", 28.6150, -96.6261),
  ("alpine", 30.3585, -103.6610),
  ("pecos", 31.4229, -103.4932),
  ("monahans", 31.5943, -102.8924),
  ("big spring", 32.2504, -101.4785),
  ("snyder", 32.7179, -100.9176),
  ("sweetwater", 32.4710, -100.4059),
  ("breckenridge", 32.7557, -98.9023),
  ("mineral wells", 32.8084, -98.1128),
  ("stephenville", 32.2207, -98.2023),
  ("granbury", 32.4419, -97.7942),
  ("cleburne", 32.3476, -97.3867),
  ("corsicana", 32.0954, -96.4689),
  ("athens", 32.2049, -95.8552),
  ("henderson", 32.1532, -94.7994),
  ("jacksonville", 31.9638, -95.2705),
  ("rusk", 31.7960, -95.1522),
  ("carthage", 32.1574, -94.3374),
  ("center", 31.7935, -94.1791),
  ("jasper", 30.9202, -93.9966),
  ("woodville", 30.7752, -94.4155),
  ("livingston", 30.7111, -94.9330),
  ("huntsville", 30.7235, -95.5508),
  ("madisonville", 30.9499, -95.9114),
  ("navasota", 30.3880, -96.0878),
  ("brenham", 30.1669, -96.3978),
  ("la grange", 29.9058, -96.8767),
  ("columbus", 29.7063, -96.5397),
  ("hallettsville", 29.4441, -96.9411),
  ("yoakum", 29.2886, -97.1514),
  ("eagle lake", 29.5894, -96.3331),
  ("el campo", 29.1966, -96.2697),
  ("wharton", 29.3116, -96.1028),
  ("rosenberg", 29.5572, -95.8086),
  ("richmond", 29.5822, -95.7608),
  ("katy", 29.7858, -95.8244),
  ("tomball", 30.0972, -95.6161),
  ("humble", 29.9988, -95.2622),
  ("baytown", 29.7355, -94.9774),
  ("pasadena", 29.6911, -95.2091),
  ("deer park", 29.7055, -95.1286),
  ("la porte", 29.6658, -95.0194),
  ("webster", 29.5377, -95.1183),
  ("friendswood", 29.5294, -95.2010),
  ("alvin", 29.4239, -95.2441),
  ("lake jackson", 29.0439, -95.4344),
  ("clute", 29.0247, -95.3986),
  ("west columbia", 29.1441, -95.6453),
  ("bellville", 29.9502, -96.2567),
  ("sealy", 29.7811, -96.1572),
  ("hempstead", 30.0972, -96.0789),
  ("magnolia", 30.2094, -95.7508),
  ("willis", 30.4250, -95.4789),
  ("huntsville tx", 30.7235, -95.5508),
  ("montgomery", 30.3883, -95.6936),
  ("anderson", 30.4863, -95.9878),
  ("centerville", 31.2585, -95.9786),
  ("buffalo", 31.4635, -96.0580),
  ("mexia", 31.6821, -96.4822),
  ("groesbeck", 31.5243, -96.5339),
  ("marlin", 31.3063, -96.8931),
  ("cameron", 30.8533, -96.9769),
  ("rockdale", 30.6555, -97.0017),
  ("taylor", 30.5728, -97.4092),
  ("elgin", 30.3497, -97.3706),
  ("smithville", 30.0086, -97.1592),
  ("giddings", 30.1825, -96.9364),
  ("manor", 30.3408, -97.5567),
  ("hutto", 30.5427, -97.5467),
  ("leander", 30.5788, -97.8531),
  ("dripping springs", 30.1902, -98.0867),
  ("wimberley", 29.9974, -98.0989),
  ("kyle", 29.9889, -97.8772),
  ("buda", 30.0852, -97.8403),
  ("flying l ranch", 29.8, -98.75),
  ("bandera", 29.7266, -99.0734),
  ("kendall", 29.95, -98.7),
  ("hays", 30.05, -98.0),
  ("sequoia", 29.9, -95.5)]

/-- The geocode cache: normalized place name → (lat, lon). -/
abbrev Geocache := List (String × ℚ × ℚ)

/-- The (closed) Texas bounding box of the spec:
`[25.5, 36.5] × [-106.7, -93.5]`. -/
@[reducible] def InTxBox (la lo : ℚ) : Prop :=
  25.5 ≤ la ∧ la ≤ 36.5 ∧ -106.7 ≤ lo ∧ lo ≤ -93.5

/-- Cache well-formedness: every cached coordinate lies in the box.
It holds of the empty (cold) cache and, as proved below, is preserved
by `geocode_notices`, so it is the run-to-run invariant of the cache
file the program itself maintains. -/
def cacheWF (c : Geocache) : Prop := ∀ e ∈ c, InTxBox e.2.1 e.2.2

/-- The loop body of `geocode_notices` (source lines 960–1003) for one
notice: gazetteer lookup, then cache lookup, then the external service
`ext` with the strict Texas-bounds sanity check; the fallback centroid
`(31.0, -99.0)` on an out-of-bounds or failed external result.
In-bounds external results are inserted into the cache. -/
def geocode_one (ext : String → Option (ℚ × ℚ)) (cache : Geocache)
    (place place_lower : String) (n : Notice) : Notice × Geocache :=
  match TX_PLACES.lookup place_lower with
  | some (la, lo) => ({ n with lat := some la, lon := some lo }, cache)
  | none =>
    match cache.lookup place_lower with
    | some (la, lo) => ({ n with lat := some la, lon := some lo }, cache)
    | none =>
      match ext place with
      | some (la, lo) =>
        if 25.5 < la ∧ la < 36.5 ∧ -106.7 < lo ∧ lo < -93.5 then
          ({ n with lat := some la, lon := some lo }, (place_lower, la, lo) :: cache)
        else ({ n with lat := some 31, lon := some (-99) }, cache)
      | none => ({ n with lat := some 31, lon := some (-99) }, cache)

/-- `geocode_notices` from the source: thread the cache through the
notices in order, attaching coordinates to every notice.  `extract`
is the embedded `_extract_place_name`, `ext` the Nominatim oracle. -/
def geocode_notices (ext : String → Option (ℚ × ℚ)) (extract : String → String) :
    Geocache → List Notice → List Notice × Geocache
  | cache, [] => ([], cache)
  | cache, n :: rest =>
    let place := extract n.entity_name
    let place_lower := strTrim (strLower place)
    let r1 := geocode_one ext cache place place_lower n
    let r2 := geocode_notices ext extract r1.2 rest
    (r1.1 :: r2.1, r2.2)

lemma mem_of_lookup {α β : Type} [BEq α] [LawfulBEq α] {l : List (α × β)} {a : α}
    {b : β} (h : l.lookup a = some b) : (a, b) ∈ l := by
  induction l with
  | nil => simp [List.lookup] at h
  | cons e t ih =>
    obtain ⟨k, v⟩ := e
    simp only [List.lookup] at h
    split at h
    · rename_i hbeq
      obtain rfl : a = k := eq_of_beq hbeq
      obtain rfl : v = b := Option.some.injEq .. ▸ h
      exact List.mem_cons_self _ _
    · exact List.mem_cons_of_mem _ (ih h)

set_option maxRecDepth 10000 in
lemma TX_PLACES_in_box : ∀ e ∈ TX_PLACES, InTxBox e.2.1 e.2.2 := by
  decide

lemma strict_in_box {la lo : ℚ}
    (h : 25.5 < la ∧ la < 36.5 ∧ -106.7 < lo ∧ lo < -93.5) : InTxBox la lo :=
  ⟨le_of_lt h.1, le_of_lt h.2.1, le_of_lt h.2.2.1, le_of_lt h.2.2.2⟩

lemma fallback_in_box : InTxBox 31 (-99) := by decide

lemma geocode_one_wf (ext : String → Option (ℚ × ℚ)) (cache : Geocache)
    (place pl : String) (n : Notice) (hc : cacheWF cache) :
    (∀ la lo, (geocode_one ext cache place pl n).1.lat = some la →
      (geocode_one ext cache place pl n).1.lon = some lo → InTxBox la lo) ∧
    cacheWF (geocode_one ext cache place pl n).2 := by
  rcases hg : TX_PLACES.lookup pl with _ | ⟨la0, lo0⟩
  · rcases hcl : cache.lookup pl with _ | ⟨la0, lo0⟩
    · rcases he : ext place with _ | ⟨la0, lo0⟩
      · simp only [geocode_one, hg, hcl, he]
        refine ⟨fun la lo hla hlo => ?_, hc⟩
        obtain rfl : (31 : ℚ) = la := Option.some.injEq .. ▸ hla
        obtain rfl : (-99 : ℚ) = lo := Option.some.injEq .. ▸ hlo
        exact fallback_in_box
      · by_cases hin : 25.5 < la0 ∧ la0 < 36.5 ∧ -106.7 < lo0 ∧ lo0 < -93.5
        · simp only [geocode_one, hg, hcl, he, if_pos hin]
          refine ⟨fun la lo hla hlo => ?_, fun e hme => ?_⟩
          · obtain rfl : la0 = la := Option.some.injEq .. ▸ hla
            obtain rfl : lo0 = lo := Option.some.injEq .. ▸ hlo
            exact strict_in_box hin
          · rcases List.mem_cons.mp hme with rfl | hme2
            · exact strict_in_box hin
            · exact hc e hme2
        · simp only [geocode_one, hg, hcl, he, if_neg hin]
          refine ⟨fun la lo hla hlo => ?_, hc⟩
          obtain rfl : (31 : ℚ) = la := Option.some.injEq .. ▸ hla
          obtain rfl : (-99 : ℚ) = lo := Option.some.injEq .. ▸ hlo
          exact fallback_in_box
    · simp only [geocode_one, hg, hcl]
      refine ⟨fun la lo hla hlo => ?_, hc⟩
      obtain rfl : la0 = la := Option.some.injEq .. ▸ hla
      obtain rfl : lo0 = lo := Option.some.injEq .. ▸ hlo
      exact hc _ (mem_of_lookup hcl)
  · simp only [geocode_one, hg]
    refine ⟨fun la lo hla hlo => ?_, hc⟩
    obtain rfl : la0 = la := Option.some.injEq .. ▸ hla
    obtain rfl : lo0 = lo := Option.some.injEq .. ▸ hlo
    exact TX_PLACES_in_box _ (mem_of_lookup hg)

lemma geocode_notices_wf (ext : String → Option (ℚ × ℚ))
    (extract : String → String) :
    ∀ (l : List Notice) (cache : Geocache), cacheWF cache →
    (∀ n2 ∈ (geocode_notices ext extract cache l).1, ∀ la lo,
      n2.lat = some la → n2.lon = some lo → InTxBox la lo) ∧
    cacheWF (geocode_notices ext extract cache l).2 := by
  intro l
  induction l with
  | nil =>
    intro cache hc
    exact ⟨fun n2 hn2 => absurd hn2 (List.not_mem_nil n2), hc⟩
  | cons n rest ih =>
    intro cache hc
    have h1 := geocode_one_wf ext cache (extract n.entity_name)
      (strTrim (strLower (extract n.entity_name))) n hc
    have h2 := ih _ h1.2
    refine ⟨fun n2 hn2 la lo hla hlo => ?_, h2.2⟩
    simp only [geocode_notices, List.mem_cons] at hn2
    rcases hn2 with rfl | hn2
    · exact h1.1 la lo hla hlo
    · exact h2.1 n2 hn2 la lo hla hlo

/-- C4: invariant on every notice emitted by `geocode_notices`, over
every resolution path (gazetteer hit, cache hit, external result,
external failure): if lat/lon are present they lie within the Texas
bounding box `[25.5, 36.5] × [-106.7, -93.5]` or equal the fallback
centroid `(31.0, -99.0)` — never an out-of-bounds value.  The
hypothesis is the cache invariant `cacheWF`, which holds of the cold
cache and is preserved by the geocoder itself (`geocode_notices_wf`). -/
theorem geocode_box_invariant (ext : String → Option (ℚ × ℚ))
    (extract : String → String) (cache : Geocache) (l : List Notice)
    (n2 : Notice) (la lo : ℚ)
    (hcache : cacheWF cache)
    (hmem : n2 ∈ (geocode_notices ext extract cache l).1)
    (hla : n2.lat = some la) (hlo : n2.lon = some lo) :
    InTxBox la lo ∨ (la = 31 ∧ lo = -99) :=
  Or.inl ((geocode_notices_wf ext extract l cache hcache).1 n2 hmem la lo hla hlo)

/-- A notice whose entity name is a gazetteer city. -/
def austinNotice : Notice := { sampleNotice with entity_name := "Austin" }

/-- Witness for C4: geocoding a concrete notice for Austin through the
gazetteer path yields in-box coordinates. -/
theorem geocode_box_invariant_witness :
    InTxBox 30.2672 (-97.7431) ∨ ((30.2672 : ℚ) = 31 ∧ (-97.7431 : ℚ) = -99) :=
  geocode_box_invariant (fun _ => none) (fun s => s) [] [austinNotice]
    { austinNotice with lat := some 30.2672, lon := some (-97.7431) }
    30.2672 (-97.7431)
    (fun e he => absurd he (List.not_mem_nil e))
    (by
      have h : (geocode_notices (fun _ => none) (fun s => s) [] [austinNotice]).1
          = [{ austinNotice with lat := some 30.2672, lon := some (-97.7431) }] := rfl
      rw [h]
      exact List.mem_singleton_self _)
    rfl rfl

lemma geocode_one_extern_oob (ext : String → Option (ℚ × ℚ)) (cache : Geocache)
    (place pl : String) (n : Notice) (la lo : ℚ)
    (hg : TX_PLACES.lookup pl = none) (hcl : cache.lookup pl = none)
    (he : ext place = some (la, lo))
    (hout : ¬ (25.5 < la ∧ la < 36.5 ∧ -106.7 < lo ∧ lo < -93.5)) :
    geocode_one ext cache place pl n =
      ({ n with lat := some 31, lon := some (-99) }, cache) := by
  simp only [geocode_one, hg, hcl, he, if_neg hout]

/-- C5: an external (tier-3) geocoding result outside the Texas bounding
box is discarded: the notice receives the fallback centroid
`(31.0, -99.0)` and the cache is returned unchanged (the out-of-bounds
result is not cached). -/
theorem geocode_extern_out_of_bounds (ext : String → Option (ℚ × ℚ))
    (cache : Geocache) (place pl : String) (n : Notice) (la lo : ℚ)
    (hg : TX_PLACES.lookup pl = none) (hcl : cache.lookup pl = none)
    (he : ext place = some (la, lo)) (hout : ¬ InTxBox la lo) :
    geocode_one ext cache place pl n =
      ({ n with lat := some 31, lon := some (-99) }, cache) :=
  geocode_one_extern_oob ext cache place pl n la lo hg hcl he
    (fun hs => hout (strict_in_box hs))

/-- Witness for C5 at the external result `(40.0, -99.0)` of the spec. -/
theorem geocode_extern_out_of_bounds_witness :
    geocode_one (fun _ => some (40, -99)) [] "Nowhereville" "nowhereville" sampleNotice
      = ({ sampleNotice with lat := some 31, lon := some (-99) }, []) :=
  geocode_extern_out_of_bounds (fun _ => some (40, -99)) [] "Nowhereville"
    "nowhereville" sampleNotice 40 (-99) rfl rfl rfl
    (by norm_num [InTxBox])

/-- C10: the tier-3 bounds check uses strict inequalities, so an
external result lying exactly on a bounding-box edge is treated as out
of bounds: discarded, not cached, and the notice receives the fallback
centroid `(31.0, -99.0)`. -/
theorem geocode_extern_boundary_strict (ext : String → Option (ℚ × ℚ))
    (cache : Geocache) (place pl : String) (n : Notice) (la lo : ℚ)
    (hg : TX_PLACES.lookup pl = none) (hcl : cache.lookup pl = none)
    (he : ext place = some (la, lo))
    (hedge : la = 25.5 ∨ la = 36.5 ∨ lo = -106.7 ∨ lo = -93.5) :
    geocode_one ext cache place pl n =
      ({ n with lat := some 31, lon := some (-99) }, cache) := by
  apply geocode_one_extern_oob ext cache place pl n la lo hg hcl he
  rcases hedge with rfl | rfl | rfl | rfl
  · exact fun h => lt_irrefl _ h.1
  · exact fun h => lt_irrefl _ h.2.1
  · exact fun h => lt_irrefl _ h.2.2.1
  · exact fun h => lt_irrefl _ h.2.2.2

/-- Witness for C10 at the boundary result `(25.5, -99.0)`. -/
theorem geocode_extern_boundary_strict_witness :
    geocode_one (fun _ => some (25.5, -99)) [] "Nowhereville" "nowhereville"
      sampleNotice = ({ sampleNotice with lat := some 31, lon := some (-99) }, []) :=
  geocode_extern_boundary_strict (fun _ => some (25.5, -99)) [] "Nowhereville"
    "nowhereville" sampleNotice 25.5 (-99) rfl rfl rfl (Or.inl rfl)

/-- `CITY_UTILITY_PAGES` from the source: the static
(entity name, url) table driving the city/utility page adapter. -/
def CITY_UTILITY_PAGES : List (String × String) := [
  ("City of Houston", "https://www.publicworks.houstontx.gov/wss-boil-water-notice"),
  ("City of San Antonio (SAWS)", "https://www.saws.org/service-alerts/"),
  ("City of Austin", "https://www.austintexas.gov/page/boil-water-notice"),
  ("City of Dallas", "https://dallascityhall.com/departments/waterutilities/Pages/default.aspx"),
  ("City of Fort Worth", "https://www.fortworthtexas.gov/departments/water/alerts"),
  ("City of El Paso", "https://www.epwater.org/customer-service/service-alerts"),
  ("City of Arlington", "https://www.arlingtontx.gov/city_hall/departments/water_utilities"),
  ("City of Corpus Christi", "https://www.cctexas.com/water"),
  ("City of Plano", "https://www.plano.gov/431/Water-Utilities"),
  ("City of Lubbock", "https://www.mylubbock.us/departmental-websites/departments/water-department"),
  ("City of Laredo", "https://www.ci.laredo.tx.us/utilities/"),
  ("City of Amarillo", "https://www.amarillo.gov/departments/community-services/utilities-department"),
  ("City of Brownsville", "https://www.brownsvillepub.com/"),
  ("City of McAllen", "https://www.mcallen.net/utilities"),
  ("City of Killeen", "https://www.killeentexas.gov/453/Water-Notices"),
  ("City of Midland", "https://www.midlandtexas.gov/167/Reports-and-Notices"),
  ("City of Odessa", "https://odessa-tx.gov/AlertCenter.aspx"),
  ("City of Beaumont", "https://www.beaumonttexas.gov/158/Water-Utilities"),
  ("City of Round Rock", "https://www.roundrocktexas.gov/departments/utilities-and-environmental-services/"),
  ("City of Waco", "https://www.waco-texas.com/water.asp"),
  ("City of Tyler", "https://www.cityoftyler.org/government/departments/utilities"),
  ("City of San Angelo", "https://www.cosatx.us/departments-services/water-utilities"),
  ("City of College Station", "https://www.cstx.gov/departments___city_hall/water"),
  ("City of Abilene", "https://www.abilenetx.gov/water"),
  ("City of Denton", "https://www.cityofdenton.com/en-us/all-departments/administrative-services/water-utilities"),
  ("TxWaterCo", "https://www.txwaterco.com/service-alerts"),
  ("Brownsville PUB", "https://www.brownsville-pub.com/bpub-outage-center/water-service-issues/"),
  ("ACF Water (Angelina Co FWSD)", "https://www.acfwater.org/public-notices.html"),
  ("Western Cass WSC", "https://westerncasswsc.com/alerts"),
  ("Bell-Milam-Falls WSC", "https://bellmilamfallswsc.com/alerts"),
  ("Millsap WSC", "https://millsapwatersupplycorp.com/alerts"),
  ("Staff WSC", "https://staffwsc.com/"),
  ("Bold Springs WSC", "https://boldspringswsc.com/"),
  ("Fort Bend County MUD 35", "https://www.fbmud35.com/alerts/"),
  ("Brazoria County MUD 22", "https://www.bcmud22.org/contact/district-alerts/"),
  ("Lakeway MUD", "https://lakewaymud.org/about-us/about-your-water/boil-water-notices/"),
  ("Cypress Creek Utility District", "https://www.cycreekud.com/water/"),
  ("West Travis County PUA", "https://www.wtcpua.org/alerts/"),
  ("Crystal Clear SUD", "https://crystalclearsud.org/alerts"),
  ("Tyler County SUD", "https://tylercountywater.com/alerts")]

/-- Per-item emission logic of `scrape_municipalops` (source lines
189–224): a list item with active text yields an "Active" notice, a
rescinded item is skipped, a "boil water notice ... as of" item yields
a "Possibly Active" notice, anything else is dropped.  `edate` embeds
`extract_date_from_text`; the entity name is the item's link text
verbatim (empty when the item has no link). -/
def municipalops_item (edate : String → String)
    (text entity_name entity_url : String) : Option Notice :=
  if is_active_bwn_text text then
    some { entity_name := entity_name, entity_type := classify_entity entity_name,
           status := "Active", notice_text := text, date := edate text,
           source := "MunicipalOps",
           source_url := "https://municipalops.com/status/",
           entity_url := entity_url }
  else if containsSub (strLower text) "rescind" || containsSub (strLower text) "lifted" then
    none
  else if containsSub (strLower text) "boil water notice" &&
      containsSub (strLower text) "as of" then
    some { entity_name := entity_name, entity_type := classify_entity entity_name,
           status := "Possibly Active", notice_text := text, date := edate text,
           source := "MunicipalOps",
           source_url := "https://municipalops.com/status/",
           entity_url := entity_url }
  else none

/-- Per-row emission logic of `scrape_swwc_dashboard` (source lines
278–304): every row whose status cell is non-empty and not "Good"
(case-insensitively) is emitted, with the raw status cell text as the
notice status and `system_name or neighborhood` as the entity name. -/
def swwc_row (county system_name neighborhood status_text : String) : Option Notice :=
  if strLower status_text ≠ "good" ∧ status_text ≠ "" then
    let entity_name := if system_name ≠ "" then system_name else neighborhood
    some { entity_name := entity_name, entity_type := classify_entity entity_name,
           status := status_text,
           notice_text := county ++ " - " ++ neighborhood ++ " - " ++ status_text,
           date := "", source := "SWWC Dashboard",
           source_url := "https://www.swwc.com/texas/neighborhood-dashboard/",
           entity_url := "" }
  else none

/-- Per-heading emission logic of `scrape_consolidated_wsc` (source
lines 332–378): skip non-boil-water headings, generic section headers,
rescind headings and lifted texts; otherwise emit an "Active" notice
named "Consolidated WSC - <area>".  `earea` embeds the area-name regex,
`edate` embeds `extract_date_from_text`. -/
def consolidated_item (edate earea : String → String)
    (text detail : String) : Option Notice :=
  if !(containsSub (strLower text) "boil water") then none
  else if strTrim (strLower text) = "boil water advisories" ∨
      strTrim (strLower text) = "boil water notices" ∨
      strTrim (strLower text) = "boil water" then none
  else if containsSub (strLower text) "rescind" then none
  else
    let combined := strLower (text ++ " " ++ detail)
    if BWN_LIFTED_KEYWORDS.any (fun kw => containsSub combined kw) then none
    else
      let date0 := edate detail
      some { entity_name := "Consolidated WSC - " ++ earea text,
             entity_type := "Water Supply Corporation (WSC)",
             status := "Active",
             notice_text := text ++ ". " ++ strTake detail 300,
             date := if date0 ≠ "" then date0 else edate text,
             source := "Consolidated WSC",
             source_url := "https://consolidatedwsc.com/alerts",
             entity_url := "https://consolidatedwsc.com/alerts" }

/-- Emission logic of `scrape_city_page` (source lines 440–498): a page
whose text passes `is_active_bwn_text` yields one "Active" notice for
the table entry's name; `extracted_text` abstracts the DOM alert-text
walk (empty when nothing was found, in which case the fixed placeholder
text is used). -/
def city_page_item (edate : String → String)
    (entity_name url page_text extracted_text : String) : Option Notice :=
  if is_active_bwn_text page_text then
    let notice_text := if extracted_text ≠ "" then extracted_text
      else "Active boil water notice detected on page (see source URL)"
    some { entity_name := entity_name, entity_type := classify_entity entity_name,
           status := "Active", notice_text := notice_text,
           date := edate notice_text, source := "City/Utility Website",
           source_url := url, entity_url := url }
  else none

/-- Per-card emission logic of `scrape_bing_news` (source lines
542–576): skip empty titles, titles without a boil-water keyword and
titles with a lifted keyword; otherwise emit a "Reported Active (News)"
notice whose entity name falls back to "Unknown (see headline)".
`eent` embeds `_extract_entity_from_headline`. -/
def bing_card_item (eent : String → String)
    (title href date : String) : Option Notice :=
  if title = "" then none
  else if !(["boil water", "water advisory", "do not use"].any
      (fun kw => containsSub (strLower title) kw)) then none
  else if BWN_LIFTED_KEYWORDS.any (fun kw => containsSub (strLower title) kw) then none
  else
    let entity_name := eent title
    some { entity_name := if entity_name ≠ "" then entity_name
             else "Unknown (see headline)",
           entity_type := if entity_name ≠ "" then classify_entity entity_name
             else "Unknown",
           status := "Reported Active (News)", notice_text := title,
           date := date, source := "Bing News", source_url := href,
           entity_url := "" }

/-- Per-result emission logic of `scrape_duckduckgo` (source lines
683–715): skip results without a boil-water keyword or with a lifted
keyword in title+snippet; otherwise emit a "Reported Active (Web)"
notice whose entity name falls back to the first 60 characters of the
title. -/
def ddg_item (eent edate : String → String)
    (title snippet href : String) : Option Notice :=
  let combined := strLower (title ++ " " ++ snippet)
  if !(["boil water", "water advisory"].any (fun kw => containsSub combined kw)) then none
  else if BWN_LIFTED_KEYWORDS.any (fun kw => containsSub combined kw) then none
  else
    let entity_name := eent title
    some { entity_name := if entity_name ≠ "" then entity_name else strTake title 60,
           entity_type := if entity_name ≠ "" then classify_entity entity_name
             else "Unknown",
           status := "Reported Active (Web)",
           notice_text := title ++ ". " ++ strTake snippet 200,
           date := edate snippet, source := "DuckDuckGo",
           source_url := href, entity_url := href }

/-- C6 counterexample: the SWWC adapter passes the dashboard's raw
status cell through, so a row whose status cell is "Outage" emits a
Notice whose status is outside the claimed closed enum. -/
theorem status_enum_counterexample :
    (swwc_row "Harris" "Quadvest" "Lakeview" "Outage").map (fun n => n.status)
        = some "Outage" ∧
      "Outage" ∉ ["Active", "Possibly Active", "Reported Active (News)",
        "Reported Active (Web)", "NonGoodStatus"] :=
  ⟨by decide, by decide⟩

/-- C6 (amended): every emitted notice's status is "Active",
"Possibly Active", "Reported Active (News)" or "Reported Active (Web)",
except for SWWC-dashboard notices, whose status is the dashboard's raw
status cell — an arbitrary non-empty string whose lowercase form is not
"good". -/
theorem status_enum_amended :
    (∀ (edate : String → String) (text ename eurl : String) (n : Notice),
      municipalops_item edate text ename eurl = some n →
      n.status = "Active" ∨ n.status = "Possibly Active") ∧
    (∀ (county sysname nbhd st : String) (n : Notice),
      swwc_row county sysname nbhd st = some n →
      n.status = st ∧ st ≠ "" ∧ strLower st ≠ "good") ∧
    (∀ (edate earea : String → String) (text detail : String) (n : Notice),
      consolidated_item edate earea text detail = some n → n.status = "Active") ∧
    (∀ (edate : String → String) (ename url ptext xtext : String) (n : Notice),
      city_page_item edate ename url ptext xtext = some n → n.status = "Active") ∧
    (∀ (eent : String → String) (title href d : String) (n : Notice),
      bing_card_item eent title href d = some n →
      n.status = "Reported Active (News)") ∧
    (∀ (eent edate : String → String) (title snippet href : String) (n : Notice),
      ddg_item eent edate title snippet href = some n →
      n.status = "Reported Active (Web)") := by
  refine ⟨?_, ?_, ?_, ?_, ?_, ?_⟩
  · intro edate text ename eurl n h
    simp only [municipalops_item] at h
    split at h
    · injection h with h; subst h; exact Or.inl rfl
    · split at h
      · exact Option.noConfusion h
      · split at h
        · injection h with h; subst h; exact Or.inr rfl
        · exact Option.noConfusion h
  · intro county sysname nbhd st n h
    simp only [swwc_row] at h
    split at h
    · rename_i hcond
      injection h with h
      subst h
      exact ⟨rfl, hcond.2, hcond.1⟩
    · exact Option.noConfusion h
  · intro edate earea text detail n h
    simp only [consolidated_item] at h
    split at h
    · exact Option.noConfusion h
    · split at h
      · exact Option.noConfusion h
      · split at h
        · exact Option.noConfusion h
        · split at h
          · exact Option.noConfusion h
          · injection h with h; subst h; rfl
  · intro edate ename url ptext xtext n h
    simp only [city_page_item] at h
    split at h
    · injection h with h; subst h; rfl
    · exact Option.noConfusion h
  · intro eent title href d n h
    simp only [bing_card_item] at h
    split at h
    · exact Option.noConfusion h
    · split at h
      · exact Option.noConfusion h
      · split at h
        · exact Option.noConfusion h
        · injection h with h; subst h; rfl
  · intro eent edate title snippet href n h
    simp only [ddg_item] at h
    split at h
    · exact Option.noConfusion h
    · split at h
      · exact Option.noConfusion h
      · injection h with h; subst h; rfl

/-- Witness for C6 (amended) on a concrete SWWC dashboard row. -/
theorem status_enum_amended_witness :
    ("Boil Water Notice" : String) ≠ "" ∧ strLower "Boil Water Notice" ≠ "good" := by
  have h := status_enum_amended.2.1 "Harris" "Quadvest" "Lakeview" "Boil Water Notice"
    { entity_name := "Quadvest", entity_type := classify_entity "Quadvest",
      status := "Boil Water Notice",
      notice_text := "Harris" ++ " - " ++ "Lakeview" ++ " - " ++ "Boil Water Notice",
      date := "", source := "SWWC Dashboard",
      source_url := "https://www.swwc.com/texas/neighborhood-dashboard/",
      entity_url := "" } (by decide)
  exact ⟨h.2.1, h.2.2⟩

lemma append_left_ne_empty (s t : String) (h : s.data ≠ []) : s ++ t ≠ "" := by
  intro he
  exact h (List.append_eq_nil.mp (congrArg String.data he)).1

lemma strTake_ne_empty (s : String) (k : Nat) (hk : 0 < k) (h : s ≠ "") :
    strTake s k ≠ "" := by
  obtain ⟨d⟩ := s
  cases d with
  | nil => exact absurd rfl h
  | cons c t =>
    cases k with
    | zero => exact absurd hk (lt_irrefl 0)
    | succ m =>
      intro he
      have hd : (c :: t).take (m + 1) = "".data := congrArg String.data he
      simp [List.take_succ_cons] at hd

/-- C7 counterexample: a MunicipalOps list item with active text but no
link emits a Notice whose `entity_name` is empty. -/
theorem entity_name_nonempty_counterexample :
    (municipalops_item (fun _ => "") "must boil water" "" "").map
        (fun n => n.entity_name) = some "" := by
  decide

/-- C7 (amended): `entity_name` is non-empty for Bing News notices
(headline-derived fallback), Consolidated WSC notices (fixed prefix),
city/utility-page notices (static non-empty table names) and DuckDuckGo
notices with a non-empty result title; but MunicipalOps and SWWC pass
the scraped name through unchecked, so a MunicipalOps item with no link
text, or an SWWC row with empty system-name and neighborhood cells,
emits a Notice with an empty `entity_name`. -/
theorem entity_name_nonempty_amended :
    (∀ (eent : String → String) (title href d : String) (n : Notice),
      bing_card_item eent title href d = some n → n.entity_name ≠ "") ∧
    (∀ (edate earea : String → String) (text detail : String) (n : Notice),
      consolidated_item edate earea text detail = some n → n.entity_name ≠ "") ∧
    (∀ e ∈ CITY_UTILITY_PAGES, e.1 ≠ "") ∧
    (∀ (edate : String → String) (ename url ptext xtext : String) (n : Notice),
      city_page_item edate ename url ptext xtext = some n → n.entity_name = ename) ∧
    (∀ (eent edate : String → String) (title snippet href : String) (n : Notice),
      ddg_item eent edate title snippet href = some n → title ≠ "" →
      n.entity_name ≠ "") ∧
    (∀ (edate : String → String) (text ename eurl : String) (n : Notice),
      municipalops_item edate text ename eurl = some n → n.entity_name = ename) ∧
    (∀ (county sysname nbhd st : String) (n : Notice),
      swwc_row county sysname nbhd st = some n →
      n.entity_name = (if sysname ≠ "" then sysname else nbhd)) := by
  refine ⟨?_, ?_, ?_, ?_, ?_, ?_, ?_⟩
  · intro eent title href d n h
    simp only [bing_card_item] at h
    split at h
    · exact Option.noConfusion h
    · split at h
      · exact Option.noConfusion h
      · split at h
        · exact Option.noConfusion h
        · injection h with h
          subst h
          by_cases he : eent title = ""
          · rw [if_neg (not_not_intro he)]
            show ("Unknown (see headline)" : String) ≠ ""
            decide
          · rw [if_pos he]
            show eent title ≠ ""
            exact he
  · intro edate earea text detail n h
    simp only [consolidated_item] at h
    split at h
    · exact Option.noConfusion h
    · split at h
      · exact Option.noConfusion h
      · split at h
        · exact Option.noConfusion h
        · split at h
          · exact Option.noConfusion h
          · injection h with h
            subst h
            exact append_left_ne_empty "Consolidated WSC - " (earea text) (by decide)
  · decide
  · intro edate ename url ptext xtext n h
    simp only [city_page_item] at h
    split at h
    · injection h with h; subst h; rfl
    · exact Option.noConfusion h
  · intro eent edate title snippet href n h htitle
    simp only [ddg_item] at h
    split at h
    · exact Option.noConfusion h
    · split at h
      · exact Option.noConfusion h
      · injection h with h
        subst h
        by_cases he : eent title = ""
        · rw [if_neg (not_not_intro he)]
          show strTake title 60 ≠ ""
          exact strTake_ne_empty title 60 (by decide) htitle
        · rw [if_pos he]
          show eent title ≠ ""
          exact he
  · intro edate text ename eurl n h
    simp only [municipalops_item] at h
    split at h
    · injection h with h; subst h; rfl
    · split at h
      · exact Option.noConfusion h
      · split at h
        · injection h with h; subst h; rfl
        · exact Option.noConfusion h
  · intro county sysname nbhd st n h
    simp only [swwc_row] at h
    split at h
    · injection h with h; subst h; rfl
    · exact Option.noConfusion h

/-- Witness for C7 (amended) on a concrete Bing News card. -/
theorem entity_name_nonempty_amended_witness :
    ({ entity_name := "Unknown (see headline)", entity_type := "Unknown",
       status := "Reported Active (News)",
       notice_text := "Statewide boil water notice roundup",
       date := "1h", source := "Bing News", source_url := "http://b",
       entity_url := "" } : Notice).entity_name ≠ "" :=
  entity_name_nonempty_amended.1 (fun _ => "")
    "Statewide boil water notice roundup" "http://b" "1h" _ (by decide)

/-- The JSON payload written by `main`:
`{ last_updated, total_notices, notices }`. -/
structure JsonOut where
  last_updated : String
  total_notices : Nat
  notices : List Notice
deriving DecidableEq, Repr

/-- The output artifacts of one run: the (possibly skipped) timestamped
CSV, the timestamped JSON snapshot and the fixed-path "latest" JSON,
each as (path, content). -/
structure RunArtifacts where
  csv : Option (String × List (List String))
  snapshot : String × JsonOut
  latest : String × JsonOut
deriving DecidableEq, Repr

/-- CSV field order fixed by `write_csv` in the source. -/
def csv_row (n : Notice) : List String :=
  [n.entity_name, n.entity_type, n.status, n.date,
   n.notice_text, n.source, n.source_url, n.entity_url]

/-- `write_csv` from the source: returns early (writing nothing) on an
empty notice list, otherwise produces a header row plus one row per
notice. -/
def write_csv (notices : List Notice) (filepath : String) :
    Option (String × List (List String)) :=
  if notices = [] then none
  else some (filepath,
    ["entity_name", "entity_type", "status", "date",
     "notice_text", "source", "source_url", "entity_url"] ::
      notices.map csv_row)

/-- The tail of `main` (source lines 1084–1146): concatenate the
adapters' contributions (an adapter that failed contributes the notices
gathered before its caught network error — in the worst case none),
dedupe, geocode (threading the cache), then save the cache and write
the artifacts.  `saveOk` models whether `_save_geocache`'s file write
succeeds; on failure the exception propagates out of `geocode_notices`
(source lines 906–909 and 1005 have no handler), so the run aborts
before any artifact is written. -/
def main_run (timestamp now : String) (sources : List (List Notice))
    (ext : String → Option (ℚ × ℚ)) (extract : String → String)
    (saveOk : Bool) (cache : Geocache) : Except String RunArtifacts :=
  let all_notices := sources.flatten
  let deduped := dedupe all_notices
  let geocoded := geocode_notices ext extract cache deduped
  if saveOk then
    let meta : JsonOut := ⟨now, geocoded.1.length, geocoded.1⟩
    Except.ok ⟨write_csv geocoded.1 ("tx_active_bwn_" ++ timestamp ++ ".csv"),
      ("tx_active_bwn_" ++ timestamp ++ ".json", meta),
      ("tx_active_bwn_latest.json", meta)⟩
  else Except.error "cache save failed"

/-- C8 counterexample: with a non-empty computed notice collection and a
failing cache save, the run ends in an error and no artifact carrying
the notices is produced — contradicting the claim that the collection
is still returned and emitted. -/
theorem cache_save_failure_counterexample :
    main_run "20260101_000000" "2026-01-01T00:00:00" [[sampleNotice]]
      (fun _ => none) (fun s => s) false [] = Except.error "cache save failed" :=
  rfl

/-- C8 (amended): a cache-save failure is surfaced to the run's caller
as an error, but the run aborts before writing any output artifact: the
already-computed notice collection is not returned or emitted. -/
theorem cache_save_failure_aborts (timestamp now : String)
    (sources : List (List Notice)) (ext : String → Option (ℚ × ℚ))
    (extract : String → String) (cache : Geocache) :
    main_run timestamp now sources ext extract false cache =
      Except.error "cache save failed" :=
  rfl

/-- C9: whenever the cache save succeeds the run completes without
aborting — for every combination of adapter contributions, including
all adapters failing (every contribution empty) — and produces both
JSON artifacts: the timestamped immutable snapshot and the fixed-path
"latest" file, carrying identical content. -/
theorem run_always_produces_artifacts (timestamp now : String)
    (sources : List (List Notice)) (ext : String → Option (ℚ × ℚ))
    (extract : String → String) (cache : Geocache) :
    ∃ arts : RunArtifacts,
      main_run timestamp now sources ext extract true cache = Except.ok arts ∧
      arts.snapshot.1 = "tx_active_bwn_" ++ timestamp ++ ".json" ∧
      arts.latest.1 = "tx_active_bwn_latest.json" ∧
      arts.latest.2 = arts.snapshot.2 ∧
      arts.snapshot.2.notices =
        (geocode_notices ext extract cache (dedupe sources.flatten)).1 :=
  ⟨_, rfl, rfl, rfl, rfl, rfl⟩

end TxBwn
